import Mathlib

/-!
The program godoc2md: the Markdown package template and the command-line driver

A shallow embedding of `main.go`.

* The text template `pkgTemplate` is embedded as a function that threads the
  output buffer through the template's actions in source order: literal text
  is appended, `{{range}}` over a slice is a left fold, `{{range}}` over a map
  visits the keys in sorted order, `{{with}}` runs its body when the value is
  non-empty.  The template functions `node`, `comment_text` and `example_text`
  come from the presentation's function map (package `godoc`) and are taken as
  parameters.
* `usage` and `main` are embedded over an explicit process state (standard
  output, standard error, the calls made to the documentation engine) with an
  outcome that is either a normal return or a process exit with a status.
-/

set_option autoImplicit false
set_option maxRecDepth 8000

namespace Godoc2md

/-! ## The documentation object read by the template

These are the `go/doc` and `godoc` types the template reads; only the fields
that `pkgTemplate` mentions are kept.  `N` is the type of syntax-tree nodes,
which the program never inspects: it hands them to `node`. -/

/-- The type `doc.Value`: a constant or variable declaration group. -/
structure Value (N : Type) where
  Doc : String
  Decl : N

/-- The type `doc.Func`: a function or method. -/
structure Func (N : Type) where
  Doc : String
  Name : String
  Decl : N

/-- The type `doc.Type`: a type with its associated declarations. -/
structure DocType (N : Type) where
  Doc : String
  Name : String
  Decl : N
  Consts : List (Value N)
  Vars : List (Value N)
  Funcs : List (Func N)
  Methods : List (Func N)

/-- The type `doc.Note`. -/
structure Note where
  Body : String

/-- The type `doc.Package`. -/
structure Package (N : Type) where
  Doc : String
  Name : String
  ImportPath : String
  Consts : List (Value N)
  Types : List (DocType N)
  Vars : List (Value N)
  Funcs : List (Func N)

/-- A Go `map[string]V`, as a list of entries.  The keys of the map are the
distinct first components; indexing finds the first entry with the key. -/
abbrev GoMap (V : Type) := List (String × V)

/-- The type `godoc.PageInfo`, the value the template is executed on (`$`).
`PAst` and `PDoc` are pointers: `none` is nil. -/
structure PageInfo (N : Type) where
  PDoc : Option (Package N)
  Notes : GoMap (List Note)
  PAst : Option N
  IsMain : Bool

/-- The functions of `pres.FuncMap()` that `pkgTemplate` calls. -/
structure FuncMap (N : Type) where
  node : PageInfo N → N → String
  comment_text : String → String → String → String
  example_text : PageInfo N → String → String → String

/-! ## Maps under `{{range}}` -/

/-- The keys of a map, each once (`reflect.Value.MapKeys`). -/
def mapKeys {V : Type} (m : GoMap V) : List String :=
  (m.map Prod.fst).dedup

/-- Map indexing `m[k]`. -/
def mapIndex {V : Type} (m : GoMap V) (k : String) : Option V :=
  (m.find? (fun e => e.1 = k)).map Prod.snd

/-- Go's string order, lexicographic on the characters. -/
def keyLE (a b : String) : Prop := a.data ≤ b.data

instance : DecidableRel keyLE := fun a b => inferInstanceAs (Decidable (a.data ≤ b.data))

instance : IsTotal String keyLE := ⟨fun a b => le_total a.data b.data⟩

instance : IsTrans String keyLE := ⟨fun _ _ _ hab hbc => le_trans hab hbc⟩

/-- The call `sortKeys` of `text/template`: a map is ranged over in sorted
key order. -/
def sortKeys (ks : List String) : List String :=
  ks.insertionSort keyLE

/-! ## `pkgTemplate`, action by action -/

variable {N : Type}

/-- Lines 128-130 (also 137-139, 157-158, 159-160):
`{{range .}}{{node $ .Decl}}⏎{{comment_text .Doc "" "\t"}}⏎{{end}}`. -/
def rangeValues (fm : FuncMap N) (info : PageInfo N) (vs : List (Value N)) (w : String) :
    String :=
  vs.foldl (fun w v => w ++ fm.node info v.Decl ++ "\n" ++ fm.comment_text v.Doc "" "\t" ++ "\n") w

/-- Lines 146-148:
`{{range .}}{{node $ .Decl}}⏎{{comment_text .Doc "" "\t"}}⏎{{example_text $ .Name "\t"}}{{end}}`. -/
def rangeFuncs (fm : FuncMap N) (info : PageInfo N) (fs : List (Func N)) (w : String) :
    String :=
  fs.foldl (fun w f => w ++ fm.node info f.Decl ++ "\n" ++ fm.comment_text f.Doc "" "\t" ++ "\n"
    ++ fm.example_text info f.Name "\t") w

/-- Lines 162-165, the functions of a type:
`{{range .Funcs}}{{node $ .Decl}}⏎{{comment_text .Doc "" "\t"}}⏎{{example_text $ .Name "\t"}}⏎{{end}}`. -/
def rangeTypeFuncs (fm : FuncMap N) (info : PageInfo N) (fs : List (Func N)) (w : String) :
    String :=
  fs.foldl (fun w f => w ++ fm.node info f.Decl ++ "\n" ++ fm.comment_text f.Doc "" "\t" ++ "\n"
    ++ fm.example_text info f.Name "\t" ++ "\n") w

/-- Lines 165-167, the methods of the type named `tname`:
`{{range .Methods}}{{node $ .Decl}}⏎{{comment_text .Doc "" "\t"}}⏎`
`{{$name := printf "%s_%s" $tname .Name}}{{example_text $ $name "    "}}{{end}}`. -/
def rangeMethods (fm : FuncMap N) (info : PageInfo N) (tname : String) (ms : List (Func N))
    (w : String) : String :=
  ms.foldl (fun w m =>
    let w := w ++ fm.node info m.Decl ++ "\n" ++ fm.comment_text m.Doc "" "\t" ++ "\n"
    let name := tname ++ "_" ++ m.Name
    w ++ fm.example_text info name "    ") w

/-- Lines 155-168, the body of `{{range .}}` over the types. -/
def execType (fm : FuncMap N) (info : PageInfo N) (w : String) (t : DocType N) : String :=
  let tname := t.Name
  let w := w ++ fm.node info t.Decl ++ "\n" ++ fm.comment_text t.Doc "" "\t" ++ "\n"
  let w := rangeValues fm info t.Consts w
  let w := rangeValues fm info t.Vars w
  let w := w ++ fm.example_text info t.Name "    " ++ "\n"
  let w := rangeTypeFuncs fm info t.Funcs w
  let w := rangeMethods fm info tname t.Methods w
  w ++ "\n"

/-- Lines 125-130: `{{with .Consts}}⏎## Constants⏎⏎{{range .}}...{{end}}{{end}}`. -/
def withConsts (fm : FuncMap N) (info : PageInfo N) (d : Package N) (w : String) : String :=
  if d.Consts.isEmpty then w
  else rangeValues fm info d.Consts (w ++ "\n## Constants\n\n")

/-- Lines 134-139: `{{with .Vars}}⏎## Variables⏎⏎{{range .}}...{{end}}{{end}}`. -/
def withVars (fm : FuncMap N) (info : PageInfo N) (d : Package N) (w : String) : String :=
  if d.Vars.isEmpty then w
  else rangeValues fm info d.Vars (w ++ "\n## Variables\n\n")

/-- Lines 143-148: `{{with .Funcs}}⏎## Functions⏎⏎{{range .}}...{{end}}{{end}}`. -/
def withFuncs (fm : FuncMap N) (info : PageInfo N) (d : Package N) (w : String) : String :=
  if d.Funcs.isEmpty then w
  else rangeFuncs fm info d.Funcs (w ++ "\n## Functions\n\n")

/-- Lines 152-168: `{{with .Types}}⏎## Types⏎⏎{{range .}}...{{end}}{{end}}`. -/
def withTypes (fm : FuncMap N) (info : PageInfo N) (d : Package N) (w : String) : String :=
  if d.Types.isEmpty then w
  else d.Types.foldl (execType fm info) (w ++ "\n## Types\n\n")

/-- Lines 113-168: `{{if $.IsMain}}...{{else}}...{{end}}` with dot the package. -/
def ifIsMain (fm : FuncMap N) (info : PageInfo N) (d : Package N) (w : String) : String :=
  if info.IsMain then
    w ++ "# " ++ d.ImportPath ++ "\n\n" ++ fm.comment_text d.Doc "" "\t" ++ "\n"
  else
    let w := w ++ "# package " ++ d.Name ++ "\n\n    import \"" ++ d.ImportPath ++ "\"\n\n"
      ++ fm.comment_text d.Doc "" "\t" ++ "\n" ++ fm.example_text info "" "\t"
    let w := withConsts fm info d w
    let w := withVars fm info d w
    let w := withFuncs fm info d w
    withTypes fm info d w

/-- Line 177: `{{range $content}}{{comment_text .Body "   " "\t"}}⏎{{end}}`. -/
def rangeContent (fm : FuncMap N) (content : List Note) (w : String) : String :=
  content.foldl (fun w n => w ++ fm.comment_text n.Body "   " "\t" ++ "\n") w

/-- Lines 174-178, one iteration of `{{range $marker, $content := .}}`:
`⏎{{$marker}}S⏎⏎{{range $content}}...{{end}}`. -/
def execMarker (fm : FuncMap N) (notes : GoMap (List Note)) (w : String) (marker : String) :
    String :=
  let content := (mapIndex notes marker).getD []
  rangeContent fm content (w ++ "\n" ++ marker ++ "S\n\n")

/-- Lines 172-178: `{{with $.Notes}}⏎## Notes⏎{{range $marker, $content := .}}...{{end}}{{end}}`. -/
def withNotes (fm : FuncMap N) (info : PageInfo N) (w : String) : String :=
  if info.Notes.isEmpty then w
  else (sortKeys (mapKeys info.Notes)).foldl (execMarker fm info.Notes) (w ++ "\n## Notes\n")

/-- Line 109: `{{with .PAst}}{{node $ .}}{{end}}`. -/
def withPAst (fm : FuncMap N) (info : PageInfo N) (w : String) : String :=
  match info.PAst with
  | some a => w ++ fm.node info a
  | none => w

/-- Lines 113-178: `{{with .PDoc}}{{if $.IsMain}}...{{end}}{{with $.Notes}}...{{end}}{{end}}`. -/
def withPDoc (fm : FuncMap N) (info : PageInfo N) (w : String) : String :=
  match info.PDoc with
  | some d => withNotes fm info (ifIsMain fm info d w)
  | none => w

/-- The template `pkgTemplate` executed on `info`: the text written. -/
def pkgTemplate (fm : FuncMap N) (info : PageInfo N) : String :=
  withPDoc fm info (withPAst fm info "")

/-! ## The text the template writes, section by section -/

/-- The texts of the entries of a list, one after the other in list order. -/
def joinMap {α : Type} (f : α → String) : List α → String
  | [] => ""
  | a :: l => f a ++ joinMap f l

/-- A constant or variable entry: `node(Decl)`, newline, `comment_text(Doc)`,
newline. -/
def valueText (fm : FuncMap N) (info : PageInfo N) (v : Value N) : String :=
  fm.node info v.Decl ++ "\n" ++ fm.comment_text v.Doc "" "\t" ++ "\n"

/-- A package-level function entry: `node(Decl)`, `comment_text(Doc)` and the
example text for the function name. -/
def funcText (fm : FuncMap N) (info : PageInfo N) (f : Func N) : String :=
  fm.node info f.Decl ++ "\n" ++ fm.comment_text f.Doc "" "\t" ++ "\n"
    ++ fm.example_text info f.Name "\t"

/-- A function entry inside a type: as `funcText`, then a newline. -/
def typeFuncText (fm : FuncMap N) (info : PageInfo N) (f : Func N) : String :=
  fm.node info f.Decl ++ "\n" ++ fm.comment_text f.Doc "" "\t" ++ "\n"
    ++ fm.example_text info f.Name "\t" ++ "\n"

/-- A method entry of the type `tname`: `node(Decl)`, `comment_text(Doc)` and
the example text looked up under `tname_Name`. -/
def methodText (fm : FuncMap N) (info : PageInfo N) (tname : String) (m : Func N) : String :=
  fm.node info m.Decl ++ "\n" ++ fm.comment_text m.Doc "" "\t" ++ "\n"
    ++ fm.example_text info (tname ++ "_" ++ m.Name) "    "

/-- A type entry: declaration, doc comment, its constants, its variables, the
example text for the type name, its functions, its methods. -/
def typeText (fm : FuncMap N) (info : PageInfo N) (t : DocType N) : String :=
  fm.node info t.Decl ++ "\n" ++ fm.comment_text t.Doc "" "\t" ++ "\n"
    ++ joinMap (valueText fm info) t.Consts
    ++ joinMap (valueText fm info) t.Vars
    ++ fm.example_text info t.Name "    " ++ "\n"
    ++ joinMap (typeFuncText fm info) t.Funcs
    ++ joinMap (methodText fm info t.Name) t.Methods
    ++ "\n"

/-- A note: `comment_text(Body)` with indent of three spaces and pre-indent
tab, then a newline. -/
def noteText (fm : FuncMap N) (n : Note) : String :=
  fm.comment_text n.Body "   " "\t" ++ "\n"

/-- A marker group: an empty line, the marker followed by `S`, an empty line,
then the notes stored under the marker. -/
def markerText (fm : FuncMap N) (notes : GoMap (List Note)) (marker : String) : String :=
  "\n" ++ marker ++ "S\n\n" ++ joinMap (noteText fm) ((mapIndex notes marker).getD [])

/-- The heading block: one line for a main package, the package line, an
empty line and the indented import line otherwise. -/
def headingText (info : PageInfo N) (d : Package N) : String :=
  if info.IsMain then "# " ++ d.ImportPath ++ "\n"
  else "# package " ++ d.Name ++ "\n\n    import \"" ++ d.ImportPath ++ "\"\n"

/-- The Constants section, empty when there are no constants. -/
def constsText (fm : FuncMap N) (info : PageInfo N) (d : Package N) : String :=
  if d.Consts.isEmpty then "" else "\n## Constants\n\n" ++ joinMap (valueText fm info) d.Consts

/-- The Variables section, empty when there are no variables. -/
def varsText (fm : FuncMap N) (info : PageInfo N) (d : Package N) : String :=
  if d.Vars.isEmpty then "" else "\n## Variables\n\n" ++ joinMap (valueText fm info) d.Vars

/-- The Functions section, empty when there are no functions. -/
def funcsText (fm : FuncMap N) (info : PageInfo N) (d : Package N) : String :=
  if d.Funcs.isEmpty then "" else "\n## Functions\n\n" ++ joinMap (funcText fm info) d.Funcs

/-- The Types section, empty when there are no types. -/
def typesText (fm : FuncMap N) (info : PageInfo N) (d : Package N) : String :=
  if d.Types.isEmpty then "" else "\n## Types\n\n" ++ joinMap (typeText fm info) d.Types

/-- The Notes section, empty when the map is empty. -/
def notesText (fm : FuncMap N) (info : PageInfo N) : String :=
  if info.Notes.isEmpty then ""
  else "\n## Notes\n" ++ joinMap (markerText fm info.Notes) (sortKeys (mapKeys info.Notes))

/-- The text of the syntax-tree view, empty when `PAst` is nil. -/
def pastText (fm : FuncMap N) (info : PageInfo N) : String :=
  match info.PAst with
  | some a => fm.node info a
  | none => ""

/-! ## Occurrences of a heading in the output -/

/-- The number of positions of `s` at which `pat` starts. -/
def countOcc (pat : List Char) : List Char → Nat
  | [] => 0
  | c :: cs => (if pat.isPrefixOf (c :: cs) then 1 else 0) + countOcc pat cs

/-- The string `pat` occurs somewhere in `s`. -/
def Occurs (pat s : String) : Prop := pat.data <:+: s.data

instance (pat s : String) : Decidable (Occurs pat s) :=
  inferInstanceAs (Decidable (pat.data <:+: s.data))

/-! ## The command-line driver: `usage`, `readTemplate`, `main` -/

/-- The flag variables of lines 25-39, holding what `flag.Parse` stored. -/
structure Flags where
  verbose : Bool
  goroot : String
  tabWidth : Int
  showTimestamps : Bool
  templateDir : String
  showPlayground : Bool
  showExamples : Bool
  declLinks : Bool

/-- The type `vfs.BindMode`. -/
inductive BindMode where
  | BindReplace
  | BindBefore
  | BindAfter
  deriving DecidableEq

/-- One call `fs.Bind(old, vfs.OS(root), new, mode)`. -/
structure Mount where
  old : String
  root : String
  new : String
  mode : BindMode
  deriving DecidableEq

/-- The name space `fs`, as the sequence of `Bind` calls made on it. -/
abbrev NameSpace := List Mount

/-- The type `godoc.Corpus`, with the field `main` sets. -/
structure Corpus where
  fs : NameSpace
  Verbose : Bool

/-- A parsed template: its name and the function executing its text. -/
structure ParsedTemplate (N : Type) where
  name : String
  exec : FuncMap N → PageInfo N → String

/-- The type `godoc.Presentation`, with the fields `main` and `readTemplates`
set. -/
structure Presentation (N : Type) where
  Corpus : Corpus
  TabWidth : Int
  ShowTimestamps : Bool
  ShowPlayground : Bool
  ShowExamples : Bool
  DeclLinks : Bool
  SrcMode : Bool
  HTMLMode : Bool
  PackageText : Option (ParsedTemplate N)

/-- One call `godoc.CommandLine(os.Stdout, fs, pres, args)`. -/
structure EngineCall (N : Type) where
  fs : NameSpace
  pres : Presentation N
  args : List String

/-- How a call of `godoc.CommandLine` ends: it returns its error value (`none`
is nil), or it panics, and the Go runtime writes the panic message and the
goroutine trace to standard error and ends the process with status 2. -/
inductive EngineEnd where
  | returned (err : Option String)
  | panicked (trace : String)
  deriving DecidableEq

/-- What lies outside `main.go`: the environment and the libraries. -/
structure Env (N : Type) where
  /-- The entries of `filepath.SplitList(build.Default.GOPATH)`. -/
  GOPATH : List String
  /-- The text `flag.PrintDefaults()` writes. -/
  flagDefaults : String
  /-- The line the standard logger writes for a message. -/
  logLine : String → String
  /-- The error, if any, of `template.New(name).Funcs(..).Funcs(..).Parse(..)`. -/
  templateParse : String → Option String
  /-- The function `godoc.CommandLine`: the text it writes to standard output
  and how the call ends. -/
  CommandLine : NameSpace → Presentation N → List String → String × EngineEnd

/-- The constructor `godoc.NewCorpus`: a corpus over the name space. -/
def NewCorpus (fs : NameSpace) : Corpus :=
  { fs := fs, Verbose := false }

/-- The constructor `godoc.NewPresentation`: a presentation of the corpus.
The other fields get the library's initial values, all of which `main`
assigns afterwards. -/
def NewPresentation (c : Corpus) : Presentation N :=
  { Corpus := c, TabWidth := 4, ShowTimestamps := false, ShowPlayground := false,
    ShowExamples := true, DeclLinks := true, SrcMode := false, HTMLMode := false,
    PackageText := none }

/-- The observable state of the process. -/
structure World (N : Type) where
  stdout : String
  stderr : String
  engineCalls : List (EngineCall N)

/-- How a piece of code ends: it returns a value to its caller, or the
process exits with a status. -/
inductive Outcome (α : Type) where
  | ret (a : α)
  | exit (code : Nat)

/-- Code acting on the process state. -/
def Proc (N : Type) (α : Type) : Type := World N → Outcome α × World N

/-- Sequencing: what follows runs only when the first part returns. -/
def Proc.bind {α β : Type} (m : Proc N α) (k : α → Proc N β) : Proc N β :=
  fun w =>
    match m w with
    | (Outcome.ret a, w1) => k a w1
    | (Outcome.exit c, w1) => (Outcome.exit c, w1)

instance : Monad (Proc N) where
  pure a := fun w => (Outcome.ret a, w)
  bind := Proc.bind

/-- A write to `os.Stderr`. -/
def writeStderr (s : String) : Proc N Unit :=
  fun w => (Outcome.ret (), { w with stderr := w.stderr ++ s })

/-- The call `os.Exit(code)`. -/
def osExit {α : Type} (code : Nat) : Proc N α :=
  fun w => (Outcome.exit code, w)

/-- The call `log.Print(msg)`: one line on standard error. -/
def logPrint (env : Env N) (msg : String) : Proc N Unit :=
  writeStderr (env.logLine msg)

/-- The call `log.Fatal(msg)`: `log.Print` followed by `os.Exit(1)`. -/
def logFatal {α : Type} (env : Env N) (msg : String) : Proc N α := do
  logPrint env msg
  osExit 1

/-- Lines 41-46. -/
def usage (env : Env N) : Proc N Unit := do
  writeStderr "usage: godoc2md package [name ...]\n"
  writeStderr env.flagDefaults
  osExit 2

/-- Lines 65-72.  `data` is the template text, given by the function that
executes it. -/
def readTemplate (env : Env N) (name : String) (data : FuncMap N → PageInfo N → String) :
    Proc N (ParsedTemplate N) := do
  match env.templateParse name with
  | some err => logFatal env ("readTemplate: " ++ err)
  | none => pure { name := name, exec := data }

/-- Lines 74-76. -/
def readTemplates (env : Env N) (p : Presentation N) (_html : Bool) : Proc N (Presentation N) := do
  let t ← readTemplate env "package.txt" pkgTemplate
  pure { p with PackageText := some t }

/-- The calls `flag.Usage = usage; flag.Parse()` of lines 79-80.  The command
line either parses into flag values and arguments, or the flag package writes
`printed` to standard error, calls `flag.Usage` and exits with status 2. -/
def flagParse (env : Env N) (cmdline : Except String (Flags × List String)) :
    Proc N (Flags × List String) :=
  match cmdline with
  | Except.ok r => pure r
  | Except.error printed => do
    writeStderr printed
    usage env
    osExit 2

/-- The call `godoc.CommandLine(os.Stdout, fs, pres, args)` of line 104.  `main`
has no `recover`, so a panic in the engine ends the process. -/
def callCommandLine (env : Env N) (fs : NameSpace) (pres : Presentation N) (args : List String) :
    Proc N (Option String) :=
  fun w =>
    let r := env.CommandLine fs pres args
    let w1 : World N :=
      { w with stdout := w.stdout ++ r.1,
               engineCalls := w.engineCalls ++ [{ fs := fs, pres := pres, args := args }] }
    match r.2 with
    | EngineEnd.returned err => (Outcome.ret err, w1)
    | EngineEnd.panicked trace => (Outcome.exit 2, { w1 with stderr := w1.stderr ++ trace })

/-- The name space after lines 83-88. -/
def bindRoots (env : Env N) (goroot : String) : NameSpace :=
  let fs : NameSpace := [{ old := "/", root := goroot, new := "/", mode := BindMode.BindReplace }]
  env.GOPATH.foldl
    (fun fs p => fs ++ [{ old := "/src/pkg", root := p, new := "/src", mode := BindMode.BindAfter }]) fs

/-- The presentation after lines 90-100. -/
def newPres (flags : Flags) (fs : NameSpace) : Presentation N :=
  let corpus := NewCorpus fs
  let corpus := { corpus with Verbose := flags.verbose }
  let pres : Presentation N := NewPresentation corpus
  let pres := { pres with TabWidth := flags.tabWidth }
  let pres := { pres with ShowTimestamps := flags.showTimestamps }
  let pres := { pres with ShowPlayground := flags.showPlayground }
  let pres := { pres with ShowExamples := flags.showExamples }
  let pres := { pres with DeclLinks := flags.declLinks }
  let pres := { pres with SrcMode := false }
  { pres with HTMLMode := false }

/-- Lines 78-107. -/
def main (env : Env N) (cmdline : Except String (Flags × List String)) : Proc N Unit := do
  let (flags, args) ← flagParse env cmdline
  let fs := bindRoots env flags.goroot
  let pres := newPres flags fs
  let pres ← readTemplates env pres false
  match ← callCommandLine env fs pres args with
  | some err => logPrint env err
  | none => pure ()

/-- The exit status of the process: that of `os.Exit`, or 0 when `main`
returns. -/
def exitStatus {α : Type} : Outcome α → Nat
  | Outcome.ret _ => 0
  | Outcome.exit code => code

/-- The process state at start. -/
def World.start : World N := { stdout := "", stderr := "", engineCalls := [] }

/-! ## The strings the template substitutes on a page -/

/-- The substituted strings of a constant or variable entry. -/
def valueStrings (fm : FuncMap N) (info : PageInfo N) (v : Value N) : List String :=
  [fm.node info v.Decl, fm.comment_text v.Doc "" "\t"]

/-- The substituted strings of a function entry, of the package or of a type. -/
def funcStrings (fm : FuncMap N) (info : PageInfo N) (f : Func N) : List String :=
  [fm.node info f.Decl, fm.comment_text f.Doc "" "\t", fm.example_text info f.Name "\t"]

/-- The substituted strings of a method entry of the type `tname`. -/
def methodStrings (fm : FuncMap N) (info : PageInfo N) (tname : String) (m : Func N) :
    List String :=
  [fm.node info m.Decl, fm.comment_text m.Doc "" "\t",
    fm.example_text info (tname ++ "_" ++ m.Name) "    "]

/-- The substituted strings of a type entry. -/
def typeStrings (fm : FuncMap N) (info : PageInfo N) (t : DocType N) : List String :=
  [fm.node info t.Decl, fm.comment_text t.Doc "" "\t"]
    ++ t.Consts.flatMap (valueStrings fm info)
    ++ t.Vars.flatMap (valueStrings fm info)
    ++ [fm.example_text info t.Name "    "]
    ++ t.Funcs.flatMap (funcStrings fm info)
    ++ t.Methods.flatMap (methodStrings fm info t.Name)

/-- The rendered notes stored under a marker. -/
def noteStrings (fm : FuncMap N) (notes : GoMap (List Note)) (marker : String) : List String :=
  ((mapIndex notes marker).getD []).map (fun n => fm.comment_text n.Body "   " "\t")

/-- The rendered syntax tree, when `PAst` is not nil. -/
def pastStrings (fm : FuncMap N) (info : PageInfo N) : List String :=
  match info.PAst with
  | some a => [fm.node info a]
  | none => []

/-- The outputs of `node`, `comment_text` and `example_text` that the template
substitutes on the page of a package that is not a main package. -/
def opaqueStrings (fm : FuncMap N) (info : PageInfo N) (d : Package N) : List String :=
  pastStrings fm info
    ++ [fm.comment_text d.Doc "" "\t", fm.example_text info "" "\t"]
    ++ d.Consts.flatMap (valueStrings fm info)
    ++ d.Vars.flatMap (valueStrings fm info)
    ++ d.Funcs.flatMap (funcStrings fm info)
    ++ d.Types.flatMap (typeStrings fm info)
    ++ (sortKeys (mapKeys info.Notes)).flatMap (noteStrings fm info.Notes)

/-- Every string the template substitutes on the page of a package that is not
a main package: the package name, the import path, the note markers and the
outputs of the three functions. -/
def substitutedStrings (fm : FuncMap N) (info : PageInfo N) (d : Package N) : List String :=
  [d.Name, d.ImportPath] ++ sortKeys (mapKeys info.Notes) ++ opaqueStrings fm info d

/-- The outputs of `example_text` on the page of a package that is not a main
package. -/
def exampleStrings (fm : FuncMap N) (info : PageInfo N) (d : Package N) : List String :=
  [fm.example_text info "" "\t"]
    ++ d.Funcs.map (fun f => fm.example_text info f.Name "\t")
    ++ d.Types.flatMap (fun t =>
        [fm.example_text info t.Name "    "]
          ++ t.Funcs.map (fun f => fm.example_text info f.Name "\t")
          ++ t.Methods.map (fun m => fm.example_text info (t.Name ++ "_" ++ m.Name) "    "))

/-- The last character of the string is a number sign. -/
def EndsWithHash (s : String) : Prop := s.data.getLast? = some '#'

instance (s : String) : Decidable (EndsWithHash s) :=
  inferInstanceAs (Decidable (s.data.getLast? = some '#'))

/-! ## Sample inputs -/

/-- A function map that shows its arguments: a node is its own source text, a
comment is indented and ends its line, and examples are off. -/
def plainFuncMap : FuncMap String where
  node := fun _ n => n
  comment_text := fun s indent _ => indent ++ s ++ "\n"
  example_text := fun _ _ _ => ""

/-- As `plainFuncMap`, with examples on and one package-level example. -/
def exampleFuncMap : FuncMap String where
  node := fun _ n => n
  comment_text := fun s indent _ => indent ++ s ++ "\n"
  example_text := fun _ name indent => if name = "" then indent ++ "Example:\n" else ""

/-- A function map in which the example of `F` ends with a number sign and
the node 1 starts with one. -/
def splitFuncMap : FuncMap Nat where
  node := fun _ n => if n = 1 then "# Constants" else "func F()"
  comment_text := fun _ _ _ => "doc"
  example_text := fun _ name _ => if name = "F" then "#" else ""

/-- A library package with one declaration of each kind and one note. -/
def samplePackage : Package String where
  Doc := "Package geom has shapes."
  Name := "geom"
  ImportPath := "example.com/geom"
  Consts := [{ Doc := "Pi is pi, see issue #12.", Decl := "const Pi = 3.14" }]
  Types := [{ Doc := "Point is a point.", Name := "Point", Decl := "type Point struct",
              Consts := [{ Doc := "Origin.", Decl := "const Zero Point = 0" }],
              Vars := [{ Doc := "Unit.", Decl := "var Unit Point" }],
              Funcs := [{ Doc := "NewPoint makes one.", Name := "NewPoint",
                          Decl := "func NewPoint() Point" }],
              Methods := [{ Doc := "Norm is the length.", Name := "Norm",
                            Decl := "func (p Point) Norm() int" }] }]
  Vars := [{ Doc := "Debug flag.", Decl := "var Debug bool" }]
  Funcs := [{ Doc := "Area of a square.", Name := "Area", Decl := "func Area(s int) int" }]

/-- The page of `samplePackage`, with notes under two markers. -/
def sampleInfo : PageInfo String where
  PDoc := some samplePackage
  Notes := [("TODO", [{ Body := "add circles" }]), ("BUG", [{ Body := "overflow" }])]
  PAst := none
  IsMain := false

/-- The sample page, for a package kept in a directory named `## Notes`. -/
def notesDirInfo : PageInfo String :=
  { sampleInfo with PDoc := some { samplePackage with ImportPath := "example.com/## Notes" } }

/-- A command with a constant; commands show the doc comment only. -/
def commandPackage : Package String where
  Doc := "Command tool does things."
  Name := "main"
  ImportPath := "example.com/cmd/tool"
  Consts := [{ Doc := "Version.", Decl := "const Version = 1" }]
  Types := []
  Vars := []
  Funcs := []

/-- The page of `commandPackage`. -/
def commandInfo : PageInfo String where
  PDoc := some commandPackage
  Notes := []
  PAst := none
  IsMain := true

/-- A library package without declarations. -/
def emptyPackage : Package String where
  Doc := "Package p."
  Name := "p"
  ImportPath := "x/p"
  Consts := []
  Types := []
  Vars := []
  Funcs := []

/-- The page of `emptyPackage`, without notes. -/
def emptyInfo : PageInfo String where
  PDoc := some emptyPackage
  Notes := []
  PAst := none
  IsMain := false

/-- A library package over numbered nodes, with the functions `F` and `G`. -/
def numberedPackage : Package Nat where
  Doc := ""
  Name := "p"
  ImportPath := "x/p"
  Consts := [{ Doc := "", Decl := 0 }]
  Types := [{ Doc := "", Name := "T", Decl := 0, Consts := [], Vars := [], Funcs := [],
              Methods := [] }]
  Vars := [{ Doc := "", Decl := 0 }]
  Funcs := [{ Doc := "", Name := "F", Decl := 0 }, { Doc := "", Name := "G", Decl := 1 }]

/-- The page of `numberedPackage`, with one note. -/
def numberedInfo : PageInfo Nat where
  PDoc := some numberedPackage
  Notes := [("BUG", [{ Body := "b" }])]
  PAst := none
  IsMain := false

/-- The flag defaults of lines 25-39. -/
def defaultFlags : Flags where
  verbose := false
  goroot := "/usr/local/go"
  tabWidth := 4
  showTimestamps := false
  templateDir := ""
  showPlayground := false
  showExamples := false
  declLinks := true

/-- An environment whose engine knows the package `fmt` only and, like the
library, indexes the first argument without testing for it. -/
def sampleEnv : Env String where
  GOPATH := ["/home/gopher"]
  flagDefaults := "  -v=false: verbose mode\n"
  logLine := fun msg => msg ++ "\n"
  templateParse := fun _ => none
  CommandLine := fun _ _ args =>
    if args = [] then ("", EngineEnd.panicked "panic: runtime error: index out of range\n")
    else if args = ["fmt"] then ("# package fmt\n", EngineEnd.returned none)
    else ("", EngineEnd.returned (some "cannot find package"))

/-- As `sampleEnv`, with a template that fails to parse. -/
def brokenEnv : Env String :=
  { sampleEnv with templateParse := fun _ => some "function \"node\" not defined" }

/-! ## The template writes the section texts -/

theorem foldl_write {α : Type} (g : String → α → String) (f : α → String)
    (h : ∀ w a, g w a = w ++ f a) (l : List α) (w : String) :
    l.foldl g w = w ++ joinMap f l := by
  induction l generalizing w with
  | nil => simp [joinMap]
  | cons a l ih => simp [joinMap, ih, h, String.append_assoc]

theorem rangeValues_eq (fm : FuncMap N) (info : PageInfo N) (vs : List (Value N)) (w : String) :
    rangeValues fm info vs w = w ++ joinMap (valueText fm info) vs :=
  foldl_write _ _ (fun w v => by simp [valueText, String.append_assoc]) vs w

theorem rangeFuncs_eq (fm : FuncMap N) (info : PageInfo N) (fs : List (Func N)) (w : String) :
    rangeFuncs fm info fs w = w ++ joinMap (funcText fm info) fs :=
  foldl_write _ _ (fun w v => by simp [funcText, String.append_assoc]) fs w

theorem rangeTypeFuncs_eq (fm : FuncMap N) (info : PageInfo N) (fs : List (Func N))
    (w : String) : rangeTypeFuncs fm info fs w = w ++ joinMap (typeFuncText fm info) fs :=
  foldl_write _ _ (fun w v => by simp [typeFuncText, String.append_assoc]) fs w

theorem rangeMethods_eq (fm : FuncMap N) (info : PageInfo N) (tname : String)
    (ms : List (Func N)) (w : String) :
    rangeMethods fm info tname ms w = w ++ joinMap (methodText fm info tname) ms :=
  foldl_write _ _ (fun w v => by simp [methodText, String.append_assoc]) ms w

theorem rangeContent_eq (fm : FuncMap N) (content : List Note) (w : String) :
    rangeContent fm content w = w ++ joinMap (noteText fm) content :=
  foldl_write _ _ (fun w v => by simp [noteText, String.append_assoc]) content w

theorem execType_eq (fm : FuncMap N) (info : PageInfo N) (w : String) (t : DocType N) :
    execType fm info w t = w ++ typeText fm info t := by
  simp [execType, typeText, rangeValues_eq, rangeTypeFuncs_eq, rangeMethods_eq,
    String.append_assoc]

theorem execMarker_eq (fm : FuncMap N) (notes : GoMap (List Note)) (w : String)
    (marker : String) : execMarker fm notes w marker = w ++ markerText fm notes marker := by
  simp [execMarker, markerText, rangeContent_eq, String.append_assoc]

theorem withConsts_eq (fm : FuncMap N) (info : PageInfo N) (d : Package N) (w : String) :
    withConsts fm info d w = w ++ constsText fm info d := by
  unfold withConsts constsText
  split <;> simp [rangeValues_eq, String.append_assoc]

theorem withVars_eq (fm : FuncMap N) (info : PageInfo N) (d : Package N) (w : String) :
    withVars fm info d w = w ++ varsText fm info d := by
  unfold withVars varsText
  split <;> simp [rangeValues_eq, String.append_assoc]

theorem withFuncs_eq (fm : FuncMap N) (info : PageInfo N) (d : Package N) (w : String) :
    withFuncs fm info d w = w ++ funcsText fm info d := by
  unfold withFuncs funcsText
  split <;> simp [rangeFuncs_eq, String.append_assoc]

theorem withTypes_eq (fm : FuncMap N) (info : PageInfo N) (d : Package N) (w : String) :
    withTypes fm info d w = w ++ typesText fm info d := by
  unfold withTypes typesText
  split
  · simp
  · rw [foldl_write (execType fm info) (typeText fm info) (execType_eq fm info)]
    simp [String.append_assoc]

theorem withNotes_eq (fm : FuncMap N) (info : PageInfo N) (w : String) :
    withNotes fm info w = w ++ notesText fm info := by
  unfold withNotes notesText
  split
  · simp
  · rw [foldl_write (execMarker fm info.Notes) (markerText fm info.Notes)
      (execMarker_eq fm info.Notes)]
    simp [String.append_assoc]

theorem withPAst_eq (fm : FuncMap N) (info : PageInfo N) (w : String) :
    withPAst fm info w = w ++ pastText fm info := by
  unfold withPAst pastText
  split <;> simp

/-- The whole output for a main package. -/
theorem pkgTemplate_main (fm : FuncMap N) (info : PageInfo N) (d : Package N)
    (hd : info.PDoc = some d) (hm : info.IsMain = true) :
    pkgTemplate fm info = pastText fm info ++ ("# " ++ (d.ImportPath ++ ("\n\n"
      ++ (fm.comment_text d.Doc "" "\t" ++ ("\n" ++ notesText fm info))))) := by
  simp [pkgTemplate, withPDoc, hd, ifIsMain, hm, withNotes_eq, withPAst_eq, String.append_assoc]

/-- The whole output for a package that is not a main package. -/
theorem pkgTemplate_nonMain (fm : FuncMap N) (info : PageInfo N) (d : Package N)
    (hd : info.PDoc = some d) (hm : info.IsMain = false) :
    pkgTemplate fm info = pastText fm info ++ ("# package " ++ (d.Name ++ ("\n\n    import \""
      ++ (d.ImportPath ++ ("\"\n\n" ++ (fm.comment_text d.Doc "" "\t" ++ ("\n"
      ++ (fm.example_text info "" "\t" ++ (constsText fm info d ++ (varsText fm info d
      ++ (funcsText fm info d ++ (typesText fm info d ++ notesText fm info)))))))))))) := by
  simp [pkgTemplate, withPDoc, hd, ifIsMain, hm, withNotes_eq, withPAst_eq, withConsts_eq,
    withVars_eq, withFuncs_eq, withTypes_eq, String.append_assoc]

/-! ## The order in which a map is ranged over -/

theorem mem_sortKeys_mapKeys {V : Type} (m : GoMap V) (k : String) :
    k ∈ sortKeys (mapKeys m) ↔ ∃ v, (k, v) ∈ m := by
  unfold sortKeys mapKeys
  rw [(List.perm_insertionSort keyLE _).mem_iff, List.mem_dedup, List.mem_map]
  constructor
  · rintro ⟨⟨k1, v⟩, he, rfl⟩
    exact ⟨v, he⟩
  · rintro ⟨v, he⟩
    exact ⟨(k, v), he, rfl⟩

theorem sortKeys_mapKeys_ascending {V : Type} (m : GoMap V) :
    List.Sorted (fun a b : String => a < b) (sortKeys (mapKeys m)) := by
  have hs : List.Sorted keyLE (sortKeys (mapKeys m)) := List.sorted_insertionSort keyLE _
  have hn : (sortKeys (mapKeys m)).Nodup :=
    (List.perm_insertionSort keyLE _).nodup_iff.mpr (List.nodup_dedup _)
  exact (List.Pairwise.and hs hn).imp (fun {a b} h =>
    String.lt_iff_toList_lt.mpr (lt_of_le_of_ne h.1 (fun e => h.2 (String.ext e))))

theorem mapIndex_of_mem {V : Type} (m : GoMap V) (k : String) (v : V) (h : (k, v) ∈ m) :
    ∃ v1, mapIndex m k = some v1 ∧ (k, v1) ∈ m := by
  unfold mapIndex
  cases hf : m.find? (fun e => decide (e.1 = k)) with
  | none =>
    have := List.find?_eq_none.mp hf (k, v) h
    simp at this
  | some e =>
    have h1 := List.find?_some hf
    have h2 := List.mem_of_find?_eq_some hf
    simp at h1
    refine ⟨e.2, rfl, ?_⟩
    rw [← h1]
    exact h2

/-! ## Counting the occurrences of a heading -/

theorem countOcc_cons (pat : List Char) (c : Char) (cs : List Char) :
    countOcc pat (c :: cs) = (if pat.isPrefixOf (c :: cs) then 1 else 0) + countOcc pat cs :=
  rfl

/-! ## Substituted strings that add no occurrence of a heading -/

theorem countOcc_skip_chars (X l t : List Char) (h : ¬ ['#', '#', ' '] <:+: l)
    (hk : l.getLast? ≠ some '#' ∨
      (('#' :: ' ' :: X).isPrefixOf t = false ∧ (' ' :: X).isPrefixOf t = false)) :
    countOcc ('#' :: '#' :: ' ' :: X) (l ++ t) = countOcc ('#' :: '#' :: ' ' :: X) t := by
  induction l with
  | nil => rfl
  | cons c l ih =>
    have h1 : ¬ ['#', '#', ' '] <:+: l := fun e => h (List.infix_cons e)
    have hk1 : l.getLast? ≠ some '#' ∨
        (('#' :: ' ' :: X).isPrefixOf t = false ∧ (' ' :: X).isPrefixOf t = false) := by
      cases l with
      | nil => exact Or.inl (by simp)
      | cons c2 l2 =>
        rcases hk with hk | hk
        · exact Or.inl (by simpa [List.getLast?_cons_cons] using hk)
        · exact Or.inr hk
    have hp : ('#' :: '#' :: ' ' :: X).isPrefixOf (c :: (l ++ t)) = false := by
      cases l with
      | nil =>
        rcases hk with hk | hk
        · have hc : c ≠ '#' := by simpa using hk
          have : ('#' == c) = false := by simpa using fun e => hc e.symm
          simp [List.isPrefixOf, this]
        · have h2 := hk.1
          simp only [List.isPrefixOf] at h2
          simp [List.isPrefixOf, h2]
      | cons c2 l2 =>
        cases l2 with
        | nil =>
          rcases hk with hk | hk
          · have hc : c2 ≠ '#' := by simpa using hk
            have : ('#' == c2) = false := by simpa using fun e => hc e.symm
            simp [List.isPrefixOf, this]
          · have h2 := hk.2
            simp only [List.isPrefixOf] at h2
            simp [List.isPrefixOf, h2]
        | cons c3 l3 =>
          by_contra hne
          simp only [List.cons_append, List.isPrefixOf, Bool.not_eq_false, Bool.and_eq_true,
            beq_iff_eq] at hne
          obtain ⟨e1, e2, e3, _⟩ := hne
          apply h
          rw [← e1, ← e2, ← e3]
          exact (List.prefix_append ['#', '#', ' '] l3).isInfix
    rw [List.cons_append, countOcc_cons, hp, ih h1 hk1]
    simp

theorem countOcc_skip_sub (X : List Char) (s : String) (t : List Char)
    (h : ¬ Occurs "## " s) (h1 : ('#' :: ' ' :: X).isPrefixOf t = false)
    (h2 : (' ' :: X).isPrefixOf t = false) :
    countOcc ('#' :: '#' :: ' ' :: X) (s.data ++ t) = countOcc ('#' :: '#' :: ' ' :: X) t :=
  countOcc_skip_chars X s.data t h (Or.inr ⟨h1, h2⟩)

theorem countOcc_skip_example (X : List Char) (s : String) (t : List Char)
    (h : ¬ Occurs "## " s) (he : ¬ EndsWithHash s) :
    countOcc ('#' :: '#' :: ' ' :: X) (s.data ++ t) = countOcc ('#' :: '#' :: ' ' :: X) t :=
  countOcc_skip_chars X s.data t h (Or.inl he)

theorem countOcc_sub_end (X : List Char) (s : String) (h : ¬ Occurs "## " s) :
    countOcc ('#' :: '#' :: ' ' :: X) s.data = 0 := by
  have := countOcc_skip_sub X s [] h rfl rfl
  simpa [countOcc] using this

theorem countOcc_skip_joinMap {α : Type} (P : List Char) (f : α → String) (l : List α)
    (h : ∀ a, a ∈ l → ∀ t, countOcc P ((f a).data ++ t) = countOcc P t) (t : List Char) :
    countOcc P ((joinMap f l).data ++ t) = countOcc P t := by
  induction l with
  | nil => simp [joinMap]
  | cons a l ih =>
    simp only [joinMap, String.data_append, List.append_assoc]
    rw [h a (by simp), ih (fun b hb => h b (by simp [hb]))]

theorem countOcc_skip_valueText (X : List Char) (fm : FuncMap N) (info : PageInfo N)
    (v : Value N) (h : ∀ s, s ∈ valueStrings fm info v → ¬ Occurs "## " s) (t : List Char) :
    countOcc ('#' :: '#' :: ' ' :: X) ((valueText fm info v).data ++ t)
      = countOcc ('#' :: '#' :: ' ' :: X) t := by
  have h1 := h (fm.node info v.Decl) (by simp [valueStrings])
  have h2 := h (fm.comment_text v.Doc "" "\t") (by simp [valueStrings])
  simp [valueText, String.data_append, countOcc_cons, List.isPrefixOf, countOcc_skip_sub, h1, h2]

theorem countOcc_skip_funcText (X : List Char) (fm : FuncMap N) (info : PageInfo N)
    (f : Func N) (h : ∀ s, s ∈ funcStrings fm info f → ¬ Occurs "## " s)
    (he : ¬ EndsWithHash (fm.example_text info f.Name "\t")) (t : List Char) :
    countOcc ('#' :: '#' :: ' ' :: X) ((funcText fm info f).data ++ t)
      = countOcc ('#' :: '#' :: ' ' :: X) t := by
  have h1 := h (fm.node info f.Decl) (by simp [funcStrings])
  have h2 := h (fm.comment_text f.Doc "" "\t") (by simp [funcStrings])
  have h3 := h (fm.example_text info f.Name "\t") (by simp [funcStrings])
  simp [funcText, String.data_append, countOcc_cons, List.isPrefixOf, countOcc_skip_sub,
    countOcc_skip_example, h1, h2, h3, he]

theorem countOcc_skip_typeFuncText (X : List Char) (fm : FuncMap N) (info : PageInfo N)
    (f : Func N) (h : ∀ s, s ∈ funcStrings fm info f → ¬ Occurs "## " s) (t : List Char) :
    countOcc ('#' :: '#' :: ' ' :: X) ((typeFuncText fm info f).data ++ t)
      = countOcc ('#' :: '#' :: ' ' :: X) t := by
  have h1 := h (fm.node info f.Decl) (by simp [funcStrings])
  have h2 := h (fm.comment_text f.Doc "" "\t") (by simp [funcStrings])
  have h3 := h (fm.example_text info f.Name "\t") (by simp [funcStrings])
  simp [typeFuncText, String.data_append, countOcc_cons, List.isPrefixOf, countOcc_skip_sub,
    h1, h2, h3]

theorem countOcc_skip_methodText (X : List Char) (fm : FuncMap N) (info : PageInfo N)
    (tname : String) (m : Func N)
    (h : ∀ s, s ∈ methodStrings fm info tname m → ¬ Occurs "## " s)
    (he : ¬ EndsWithHash (fm.example_text info (tname ++ "_" ++ m.Name) "    "))
    (t : List Char) :
    countOcc ('#' :: '#' :: ' ' :: X) ((methodText fm info tname m).data ++ t)
      = countOcc ('#' :: '#' :: ' ' :: X) t := by
  have h1 := h (fm.node info m.Decl) (by simp [methodStrings])
  have h2 := h (fm.comment_text m.Doc "" "\t") (by simp [methodStrings])
  have h3 := h (fm.example_text info (tname ++ "_" ++ m.Name) "    ") (by simp [methodStrings])
  simp [methodText, String.data_append, countOcc_cons, List.isPrefixOf, countOcc_skip_sub,
    countOcc_skip_example, h1, h2, h3, he]

theorem countOcc_skip_noteText (X : List Char) (fm : FuncMap N) (n : Note)
    (h : ¬ Occurs "## " (fm.comment_text n.Body "   " "\t")) (t : List Char) :
    countOcc ('#' :: '#' :: ' ' :: X) ((noteText fm n).data ++ t)
      = countOcc ('#' :: '#' :: ' ' :: X) t := by
  simp [noteText, String.data_append, countOcc_cons, List.isPrefixOf, countOcc_skip_sub, h]

theorem countOcc_skip_typeText (X : List Char) (fm : FuncMap N) (info : PageInfo N)
    (t : DocType N) (h : ∀ s, s ∈ typeStrings fm info t → ¬ Occurs "## " s)
    (he : ∀ m, m ∈ t.Methods →
      ¬ EndsWithHash (fm.example_text info (t.Name ++ "_" ++ m.Name) "    "))
    (r : List Char) :
    countOcc ('#' :: '#' :: ' ' :: X) ((typeText fm info t).data ++ r)
      = countOcc ('#' :: '#' :: ' ' :: X) r := by
  have h1 := h (fm.node info t.Decl) (by simp [typeStrings])
  have h2 := h (fm.comment_text t.Doc "" "\t") (by simp [typeStrings])
  have h3 := h (fm.example_text info t.Name "    ") (by simp [typeStrings])
  have j1 := countOcc_skip_joinMap ('#' :: '#' :: ' ' :: X) (valueText fm info) t.Consts
    (fun v hv => countOcc_skip_valueText X fm info v (fun s hs => h s (by
      simp only [typeStrings, List.mem_append]
      exact Or.inl (Or.inl (Or.inl (Or.inl (Or.inr (List.mem_flatMap.mpr ⟨v, hv, hs⟩))))))))
  have j2 := countOcc_skip_joinMap ('#' :: '#' :: ' ' :: X) (valueText fm info) t.Vars
    (fun v hv => countOcc_skip_valueText X fm info v (fun s hs => h s (by
      simp only [typeStrings, List.mem_append]
      exact Or.inl (Or.inl (Or.inl (Or.inr (List.mem_flatMap.mpr ⟨v, hv, hs⟩)))))))
  have j3 := countOcc_skip_joinMap ('#' :: '#' :: ' ' :: X) (typeFuncText fm info) t.Funcs
    (fun f hf => countOcc_skip_typeFuncText X fm info f (fun s hs => h s (by
      simp only [typeStrings, List.mem_append]
      exact Or.inl (Or.inr (List.mem_flatMap.mpr ⟨f, hf, hs⟩)))))
  have j4 := countOcc_skip_joinMap ('#' :: '#' :: ' ' :: X) (methodText fm info t.Name)
    t.Methods
    (fun m hm => countOcc_skip_methodText X fm info t.Name m (fun s hs => h s (by
      simp only [typeStrings, List.mem_append]
      exact Or.inr (List.mem_flatMap.mpr ⟨m, hm, hs⟩))) (he m hm))
  simp [typeText, String.data_append, countOcc_cons, List.isPrefixOf, countOcc_skip_sub,
    h1, h2, h3, j1, j2, j3, j4]

theorem countOcc_skip_markerText (X : List Char) (fm : FuncMap N) (notes : GoMap (List Note))
    (marker : String) (hm : ¬ Occurs "## " marker)
    (h : ∀ s, s ∈ noteStrings fm notes marker → ¬ Occurs "## " s) (r : List Char) :
    countOcc ('#' :: '#' :: ' ' :: X) ((markerText fm notes marker).data ++ r)
      = countOcc ('#' :: '#' :: ' ' :: X) r := by
  have j := countOcc_skip_joinMap ('#' :: '#' :: ' ' :: X) (noteText fm)
    ((mapIndex notes marker).getD [])
    (fun n hn => countOcc_skip_noteText X fm n (h _ (by
      simp only [noteStrings]
      exact List.mem_map_of_mem _ hn)))
  simp [markerText, String.data_append, countOcc_cons, List.isPrefixOf, countOcc_skip_sub,
    hm, j]

/-! ## The heading and the package doc comment -/

/-- C1: when the documentation object is present, the output is the
syntax-tree text (empty when `PAst` is nil), then the heading block, an empty
line, the `comment_text` rendering of the package doc comment (indent empty,
pre-indent tab), and the rest of the page.  The heading block of a main package
is the line `# ImportPath`; otherwise it is the line `# package Name`, an empty
line and the indented line `    import "ImportPath"`. -/
theorem heading_then_doc (fm : FuncMap N) (info : PageInfo N) (d : Package N)
    (hd : info.PDoc = some d) :
    ∃ rest, pkgTemplate fm info =
      pastText fm info
      ++ (if info.IsMain then "# " ++ d.ImportPath ++ "\n"
          else "# package " ++ d.Name ++ "\n\n    import \"" ++ d.ImportPath ++ "\"\n")
      ++ "\n" ++ fm.comment_text d.Doc "" "\t" ++ rest := by
  cases hm : info.IsMain with
  | true =>
    exact ⟨"\n" ++ notesText fm info, by
      rw [pkgTemplate_main fm info d hd hm]; simp [String.append_assoc]⟩
  | false =>
    exact ⟨"\n" ++ (fm.example_text info "" "\t" ++ (constsText fm info d ++ (varsText fm info d
      ++ (funcsText fm info d ++ (typesText fm info d ++ notesText fm info))))), by
      rw [pkgTemplate_nonMain fm info d hd hm]; simp [String.append_assoc]⟩

/-- C1 at the sample library page. -/
theorem heading_then_doc_witness :
    ∃ rest, pkgTemplate plainFuncMap sampleInfo =
      pastText plainFuncMap sampleInfo
      ++ (if sampleInfo.IsMain then "# " ++ samplePackage.ImportPath ++ "\n"
          else "# package " ++ samplePackage.Name ++ "\n\n    import \""
            ++ samplePackage.ImportPath ++ "\"\n")
      ++ "\n" ++ plainFuncMap.comment_text samplePackage.Doc "" "\t" ++ rest :=
  heading_then_doc plainFuncMap sampleInfo samplePackage rfl

/-! ## The declaration sections -/

/-- C2, as amended: in the output for a package that is not a main package,
each declaration kind that is present has its section: the heading
`## Constants`, `## Variables`, `## Functions` or `## Types` on a line of its
own, an empty line, and then every entry of the list, in list order, as
`node(Decl)`, newline, `comment_text(Doc)`, newline (a function entry ends with
its example text, a type entry goes on with the declarations of the type). -/
theorem sections_of_library_package (fm : FuncMap N) (info : PageInfo N) (d : Package N)
    (hd : info.PDoc = some d) (hm : info.IsMain = false) :
    (d.Consts ≠ [] → ∃ pre post, pkgTemplate fm info = pre ++ "\n## Constants\n\n"
      ++ joinMap (fun v => fm.node info v.Decl ++ "\n" ++ fm.comment_text v.Doc "" "\t" ++ "\n")
          d.Consts ++ post) ∧
    (d.Vars ≠ [] → ∃ pre post, pkgTemplate fm info = pre ++ "\n## Variables\n\n"
      ++ joinMap (fun v => fm.node info v.Decl ++ "\n" ++ fm.comment_text v.Doc "" "\t" ++ "\n")
          d.Vars ++ post) ∧
    (d.Funcs ≠ [] → ∃ pre post, pkgTemplate fm info = pre ++ "\n## Functions\n\n"
      ++ joinMap (fun f => fm.node info f.Decl ++ "\n" ++ fm.comment_text f.Doc "" "\t" ++ "\n"
          ++ fm.example_text info f.Name "\t") d.Funcs ++ post) ∧
    (d.Types ≠ [] → ∃ pre post, ∃ more : DocType N → String,
      pkgTemplate fm info = pre ++ "\n## Types\n\n"
      ++ joinMap (fun t => fm.node info t.Decl ++ "\n" ++ fm.comment_text t.Doc "" "\t" ++ "\n"
          ++ more t) d.Types ++ post) := by
  rw [pkgTemplate_nonMain fm info d hd hm]
  refine ⟨fun h => ?_, fun h => ?_, fun h => ?_, fun h => ?_⟩
  · refine ⟨pastText fm info ++ "# package " ++ d.Name ++ "\n\n    import \"" ++ d.ImportPath
      ++ "\"\n\n" ++ fm.comment_text d.Doc "" "\t" ++ "\n" ++ fm.example_text info "" "\t",
      varsText fm info d ++ funcsText fm info d ++ typesText fm info d ++ notesText fm info, ?_⟩
    have e : constsText fm info d = "\n## Constants\n\n" ++ joinMap (valueText fm info) d.Consts := by
      simp [constsText, h]
    have e2 : valueText fm info = fun v => fm.node info v.Decl ++ ("\n"
        ++ (fm.comment_text v.Doc "" "\t" ++ "\n")) := by
      funext v
      simp [valueText, String.append_assoc]
    rw [e, e2]
    simp only [String.append_assoc]
  · refine ⟨pastText fm info ++ "# package " ++ d.Name ++ "\n\n    import \"" ++ d.ImportPath
      ++ "\"\n\n" ++ fm.comment_text d.Doc "" "\t" ++ "\n" ++ fm.example_text info "" "\t"
      ++ constsText fm info d,
      funcsText fm info d ++ typesText fm info d ++ notesText fm info, ?_⟩
    have e : varsText fm info d = "\n## Variables\n\n" ++ joinMap (valueText fm info) d.Vars := by
      simp [varsText, h]
    have e2 : valueText fm info = fun v => fm.node info v.Decl ++ ("\n"
        ++ (fm.comment_text v.Doc "" "\t" ++ "\n")) := by
      funext v
      simp [valueText, String.append_assoc]
    rw [e, e2]
    simp only [String.append_assoc]
  · refine ⟨pastText fm info ++ "# package " ++ d.Name ++ "\n\n    import \"" ++ d.ImportPath
      ++ "\"\n\n" ++ fm.comment_text d.Doc "" "\t" ++ "\n" ++ fm.example_text info "" "\t"
      ++ constsText fm info d ++ varsText fm info d,
      typesText fm info d ++ notesText fm info, ?_⟩
    have e : funcsText fm info d = "\n## Functions\n\n" ++ joinMap (funcText fm info) d.Funcs := by
      simp [funcsText, h]
    have e2 : funcText fm info = fun f => fm.node info f.Decl ++ ("\n"
        ++ (fm.comment_text f.Doc "" "\t" ++ ("\n" ++ fm.example_text info f.Name "\t"))) := by
      funext f
      simp [funcText, String.append_assoc]
    rw [e, e2]
    simp only [String.append_assoc]
  · refine ⟨pastText fm info ++ "# package " ++ d.Name ++ "\n\n    import \"" ++ d.ImportPath
      ++ "\"\n\n" ++ fm.comment_text d.Doc "" "\t" ++ "\n" ++ fm.example_text info "" "\t"
      ++ constsText fm info d ++ varsText fm info d ++ funcsText fm info d,
      notesText fm info,
      fun t => joinMap (valueText fm info) t.Consts ++ joinMap (valueText fm info) t.Vars
        ++ fm.example_text info t.Name "    " ++ "\n" ++ joinMap (typeFuncText fm info) t.Funcs
        ++ joinMap (methodText fm info t.Name) t.Methods ++ "\n", ?_⟩
    have e : typesText fm info d = "\n## Types\n\n" ++ joinMap (typeText fm info) d.Types := by
      simp [typesText, h]
    have e2 : typeText fm info = fun t => fm.node info t.Decl ++ ("\n"
        ++ (fm.comment_text t.Doc "" "\t" ++ ("\n"
        ++ (joinMap (valueText fm info) t.Consts ++ (joinMap (valueText fm info) t.Vars
        ++ (fm.example_text info t.Name "    " ++ ("\n" ++ (joinMap (typeFuncText fm info) t.Funcs
        ++ (joinMap (methodText fm info t.Name) t.Methods ++ "\n"))))))))) := by
      funext t
      simp [typeText, String.append_assoc]
    rw [e, e2]
    simp only [String.append_assoc]

/-- C2 at the sample library page. -/
theorem sections_of_library_package_witness :
    ∃ pre post, pkgTemplate plainFuncMap sampleInfo =
      pre ++ "\n## Constants\n\n"
      ++ joinMap (fun v => plainFuncMap.node sampleInfo v.Decl ++ "\n"
          ++ plainFuncMap.comment_text v.Doc "" "\t" ++ "\n") samplePackage.Consts ++ post :=
  (sections_of_library_package plainFuncMap sampleInfo samplePackage rfl rfl).1
    (by simp [samplePackage])

/-- C2 as stated fails: the page of a command has a constant and no Constants
section; the output is the heading and the doc comment only. -/
theorem command_page_has_no_sections :
    commandInfo.PDoc = some commandPackage ∧ commandPackage.Consts.isEmpty = false ∧
    pkgTemplate plainFuncMap commandInfo
      = "# example.com/cmd/tool\n\nCommand tool does things.\n\n" ∧
    ¬ Occurs "## Constants" (pkgTemplate plainFuncMap commandInfo) := by
  refine ⟨rfl, rfl, by decide, by decide⟩

/-- C3, as amended: when the constants, variables, functions, types and notes
are all empty, the output is the syntax-tree text (empty when `PAst` is nil),
the heading block, an empty line, the `comment_text` rendering of the doc
comment, a newline and, for a package that is not a main package, the
package-level example text `example_text $ "" "\t"`; nothing else is written,
so no section heading is emitted. -/
theorem empty_object_output (fm : FuncMap N) (info : PageInfo N) (d : Package N)
    (hd : info.PDoc = some d) (hc : d.Consts = []) (hv : d.Vars = []) (hf : d.Funcs = [])
    (ht : d.Types = []) (hn : info.Notes = []) :
    pkgTemplate fm info =
      pastText fm info
      ++ (if info.IsMain then "# " ++ d.ImportPath ++ "\n"
          else "# package " ++ d.Name ++ "\n\n    import \"" ++ d.ImportPath ++ "\"\n")
      ++ "\n" ++ fm.comment_text d.Doc "" "\t" ++ "\n"
      ++ (if info.IsMain then "" else fm.example_text info "" "\t") := by
  cases hm : info.IsMain with
  | true =>
    rw [pkgTemplate_main fm info d hd hm]
    simp [notesText, hn, String.append_assoc]
  | false =>
    rw [pkgTemplate_nonMain fm info d hd hm]
    simp [notesText, constsText, varsText, funcsText, typesText, hc, hv, hf, ht, hn,
      String.append_assoc]

/-- C3 at the sample page without declarations. -/
theorem empty_object_output_witness :
    pkgTemplate plainFuncMap emptyInfo = "# package p\n\n    import \"x/p\"\n\nPackage p.\n\n" :=
  (empty_object_output plainFuncMap emptyInfo emptyPackage rfl rfl rfl rfl rfl rfl).trans
    (by decide)

/-- C3 as stated fails: with examples on, the page of a package without
declarations and notes also shows the package-level example, text that is
neither in the heading nor in the doc comment. -/
theorem empty_object_shows_example :
    emptyInfo.PDoc = some emptyPackage ∧ emptyPackage.Consts.isEmpty = true ∧
    emptyPackage.Vars.isEmpty = true ∧ emptyPackage.Funcs.isEmpty = true ∧
    emptyPackage.Types.isEmpty = true ∧ emptyInfo.Notes.isEmpty = true ∧
    pkgTemplate exampleFuncMap emptyInfo
      = "# package p\n\n    import \"x/p\"\n\nPackage p.\n\n\tExample:\n" ∧
    Occurs "Example:" (pkgTemplate exampleFuncMap emptyInfo) ∧
    ¬ Occurs "Example:" ("# package p\n\n    import \"x/p\"\n" ++ "\n"
        ++ exampleFuncMap.comment_text emptyPackage.Doc "" "\t") := by
  refine ⟨rfl, rfl, rfl, rfl, rfl, rfl, by decide, by decide, by decide⟩

/-! ## The Types section -/

/-- C9: in the output for a package that is not a main package and has types,
the Types section is the heading `## Types` and then, for every type in list
order: `node(Decl)`, `comment_text(Doc)`, then `node(Decl)` and
`comment_text(Doc)` for each constant of the type, the same for each variable
of the type, the example text for the type name, then `node(Decl)`,
`comment_text(Doc)` and the example text for the function name for each
function of the type, then `node(Decl)`, `comment_text(Doc)` and the example
text looked up under `TypeName_MethodName` for each method.  The Notes section
follows. -/
theorem types_section (fm : FuncMap N) (info : PageInfo N) (d : Package N)
    (hd : info.PDoc = some d) (hm : info.IsMain = false) (ht : d.Types ≠ []) :
    ∃ pre, pkgTemplate fm info = pre ++ "\n## Types\n\n"
      ++ joinMap (fun t =>
          fm.node info t.Decl ++ "\n" ++ fm.comment_text t.Doc "" "\t" ++ "\n"
          ++ joinMap (fun v => fm.node info v.Decl ++ "\n" ++ fm.comment_text v.Doc "" "\t"
              ++ "\n") t.Consts
          ++ joinMap (fun v => fm.node info v.Decl ++ "\n" ++ fm.comment_text v.Doc "" "\t"
              ++ "\n") t.Vars
          ++ fm.example_text info t.Name "    " ++ "\n"
          ++ joinMap (fun f => fm.node info f.Decl ++ "\n" ++ fm.comment_text f.Doc "" "\t"
              ++ "\n" ++ fm.example_text info f.Name "\t" ++ "\n") t.Funcs
          ++ joinMap (fun m => fm.node info m.Decl ++ "\n" ++ fm.comment_text m.Doc "" "\t"
              ++ "\n" ++ fm.example_text info (t.Name ++ "_" ++ m.Name) "    ") t.Methods
          ++ "\n") d.Types
      ++ notesText fm info := by
  refine ⟨pastText fm info ++ "# package " ++ d.Name ++ "\n\n    import \"" ++ d.ImportPath
      ++ "\"\n\n" ++ fm.comment_text d.Doc "" "\t" ++ "\n" ++ fm.example_text info "" "\t"
      ++ constsText fm info d ++ varsText fm info d ++ funcsText fm info d, ?_⟩
  have e : typesText fm info d = "\n## Types\n\n" ++ joinMap (typeText fm info) d.Types := by
    simp [typesText, ht]
  rw [pkgTemplate_nonMain fm info d hd hm, e]
  delta typeText valueText typeFuncText methodText
  simp only [String.append_assoc]

/-- C9 at the sample library page. -/
theorem types_section_witness :
    ∃ pre, pkgTemplate plainFuncMap sampleInfo = pre ++ "\n## Types\n\n"
      ++ joinMap (fun t =>
          plainFuncMap.node sampleInfo t.Decl ++ "\n"
          ++ plainFuncMap.comment_text t.Doc "" "\t" ++ "\n"
          ++ joinMap (fun v => plainFuncMap.node sampleInfo v.Decl ++ "\n"
              ++ plainFuncMap.comment_text v.Doc "" "\t" ++ "\n") t.Consts
          ++ joinMap (fun v => plainFuncMap.node sampleInfo v.Decl ++ "\n"
              ++ plainFuncMap.comment_text v.Doc "" "\t" ++ "\n") t.Vars
          ++ plainFuncMap.example_text sampleInfo t.Name "    " ++ "\n"
          ++ joinMap (fun f => plainFuncMap.node sampleInfo f.Decl ++ "\n"
              ++ plainFuncMap.comment_text f.Doc "" "\t" ++ "\n"
              ++ plainFuncMap.example_text sampleInfo f.Name "\t" ++ "\n") t.Funcs
          ++ joinMap (fun m => plainFuncMap.node sampleInfo m.Decl ++ "\n"
              ++ plainFuncMap.comment_text m.Doc "" "\t" ++ "\n"
              ++ plainFuncMap.example_text sampleInfo (t.Name ++ "_" ++ m.Name) "    ") t.Methods
          ++ "\n") samplePackage.Types
      ++ notesText plainFuncMap sampleInfo :=
  types_section plainFuncMap sampleInfo samplePackage rfl rfl (by simp [samplePackage])

/-! ## The Notes section -/

/-- C10: when the documentation object is present, main package or not, the
output is what the template wrote before the Notes action followed by the Notes
section.  The section is empty when the Notes map is empty; otherwise it is
the heading `## Notes` and then, for each marker, an empty line, the marker
followed by the letter `S`, an empty line, and the `comment_text` rendering
(indent of three spaces, pre-indent tab) of the body of every note stored
under the marker, in stored order.  The markers visited are strictly ascending
(so each is visited once), they are exactly the keys of the map, and the notes
of a visited marker are an entry of the map. -/
theorem notes_section (fm : FuncMap N) (info : PageInfo N) (d : Package N)
    (hd : info.PDoc = some d) :
    pkgTemplate fm info = ifIsMain fm info d (withPAst fm info "")
      ++ (if info.Notes.isEmpty then ""
          else "\n## Notes\n" ++ joinMap (fun marker => "\n" ++ marker ++ "S\n\n"
            ++ joinMap (fun n => fm.comment_text n.Body "   " "\t" ++ "\n")
                ((mapIndex info.Notes marker).getD [])) (sortKeys (mapKeys info.Notes)))
    ∧ List.Sorted (fun a b : String => a < b) (sortKeys (mapKeys info.Notes))
    ∧ (∀ k, k ∈ sortKeys (mapKeys info.Notes) ↔ ∃ v, (k, v) ∈ info.Notes)
    ∧ (∀ k, k ∈ sortKeys (mapKeys info.Notes) →
        ∃ v, mapIndex info.Notes k = some v ∧ (k, v) ∈ info.Notes) := by
  refine ⟨?_, sortKeys_mapKeys_ascending info.Notes, mem_sortKeys_mapKeys info.Notes, ?_⟩
  · simp only [pkgTemplate, withPDoc, hd, withNotes_eq]
    congr 1
  · intro k hk
    obtain ⟨v, hv⟩ := (mem_sortKeys_mapKeys info.Notes k).mp hk
    exact mapIndex_of_mem info.Notes k v hv

/-- C10 at the sample library page: the markers are visited as `BUG`, `TODO`. -/
theorem notes_section_witness :
    sortKeys (mapKeys sampleInfo.Notes) = ["BUG", "TODO"] ∧
    pkgTemplate plainFuncMap sampleInfo
      = ifIsMain plainFuncMap sampleInfo samplePackage (withPAst plainFuncMap sampleInfo "")
        ++ "\n## Notes\n\nBUGS\n\n   overflow\n\n\nTODOS\n\n   add circles\n\n" :=
  ⟨by decide, (notes_section plainFuncMap sampleInfo samplePackage rfl).1.trans
    (congrArg (fun s => ifIsMain plainFuncMap sampleInfo samplePackage
      (withPAst plainFuncMap sampleInfo "") ++ s) (by decide))⟩

/-! ## The command-line driver -/

/-- What `main` does once the command line has parsed. -/
theorem main_ok (env : Env N) (flags : Flags) (args : List String) (w : World N) :
    main env (Except.ok (flags, args)) w =
      match env.templateParse "package.txt" with
      | some err =>
        (Outcome.exit 1, { w with stderr := w.stderr ++ env.logLine ("readTemplate: " ++ err) })
      | none =>
        let fs := bindRoots env flags.goroot
        let pres : Presentation N :=
          { (newPres flags fs : Presentation N) with
            PackageText := some { name := "package.txt", exec := pkgTemplate } }
        let r := env.CommandLine fs pres args
        ((match r.2 with
          | EngineEnd.returned _ => Outcome.ret ()
          | EngineEnd.panicked _ => Outcome.exit 2),
          { stdout := w.stdout ++ r.1,
            stderr := w.stderr ++ (match r.2 with
              | EngineEnd.returned (some err) => env.logLine err
              | EngineEnd.returned none => ""
              | EngineEnd.panicked trace => trace),
            engineCalls := w.engineCalls ++ [{ fs := fs, pres := pres, args := args }] }) := by
  cases hp : env.templateParse "package.txt" with
  | some err =>
    simp [main, flagParse, readTemplates, readTemplate, hp, logFatal, logPrint, writeStderr,
      osExit, bind, Proc.bind, pure]
  | none =>
    cases hr : (env.CommandLine (bindRoots env flags.goroot)
        { (newPres flags (bindRoots env flags.goroot) : Presentation N) with
          PackageText := some { name := "package.txt", exec := pkgTemplate } } args).2 with
    | returned err =>
      cases err with
      | none =>
        simp [main, flagParse, readTemplates, readTemplate, hp, hr, callCommandLine, bind,
          Proc.bind, pure]
      | some e =>
        simp [main, flagParse, readTemplates, readTemplate, hp, hr, callCommandLine, logPrint,
          writeStderr, bind, Proc.bind, pure]
    | panicked trace =>
      simp [main, flagParse, readTemplates, readTemplate, hp, hr, callCommandLine, bind,
        Proc.bind, pure]

theorem foldl_bind_head (ps : List String) (fs : NameSpace) (m : Mount)
    (h : fs.head? = some m) :
    (ps.foldl (fun fs p => fs ++
      [{ old := "/src/pkg", root := p, new := "/src", mode := BindMode.BindAfter }]) fs).head?
      = some m := by
  induction ps generalizing fs with
  | nil => exact h
  | cons p ps ih =>
    apply ih
    cases fs with
    | nil => simp at h
    | cons a l => simpa using h

theorem bindRoots_head (env : Env N) (goroot : String) :
    (bindRoots env goroot).head?
      = some { old := "/", root := goroot, new := "/", mode := BindMode.BindReplace } :=
  foldl_bind_head env.GOPATH _ _ rfl

/-- C5: from any state `usage` appends the line
`usage: godoc2md package [name ...]` and then the flag defaults to standard
error and exits with status 2; standard output and the engine calls are
untouched; whatever follows a call of `usage` never runs; and a command line
that does not parse makes `main` end this way, after what the flag package
printed. -/
theorem usage_exits_with_status_2 (env : Env N) (w : World N) :
    usage env w = (Outcome.exit 2,
      { w with stderr := w.stderr ++ "usage: godoc2md package [name ...]\n" ++ env.flagDefaults })
    ∧ (∀ (β : Type) (k : Unit → Proc N β), Proc.bind (usage env) k w = (Outcome.exit 2,
      { w with stderr := w.stderr ++ "usage: godoc2md package [name ...]\n" ++ env.flagDefaults }))
    ∧ (∀ printed : String, main env (Except.error printed) w = (Outcome.exit 2,
      { w with stderr := w.stderr ++ printed ++ "usage: godoc2md package [name ...]\n"
          ++ env.flagDefaults })) := by
  have h : usage env w = (Outcome.exit 2,
      { w with stderr := w.stderr ++ "usage: godoc2md package [name ...]\n" ++ env.flagDefaults }) := by
    simp [usage, writeStderr, osExit, bind, Proc.bind]
  refine ⟨h, fun β k => ?_, fun printed => ?_⟩
  · simp [Proc.bind, h]
  · simp [main, flagParse, usage, writeStderr, osExit, bind, Proc.bind, String.append_assoc]

/-- C4 fails on the code: with a command line that parses and has no package
argument, `main` does not call `usage`; it calls the documentation engine with
the empty argument list.  What reaches standard error after that is the
engine's: its logged error when the call returns one, the panic trace when the
call panics; the usage line is not written.  The exit status is 0 when the call
returns and 2, the runtime's, when it panics. -/
theorem main_without_package_calls_engine (env : Env N) (flags : Flags) (w : World N)
    (hp : env.templateParse "package.txt" = none) :
    ∃ call : EngineCall N,
      (main env (Except.ok (flags, [])) w).2.engineCalls = w.engineCalls ++ [call]
      ∧ call.args = []
      ∧ (main env (Except.ok (flags, [])) w).2.stderr = w.stderr ++
          (match (env.CommandLine call.fs call.pres []).2 with
           | EngineEnd.returned (some err) => env.logLine err
           | EngineEnd.returned none => ""
           | EngineEnd.panicked trace => trace)
      ∧ exitStatus (main env (Except.ok (flags, [])) w).1 =
          (match (env.CommandLine call.fs call.pres []).2 with
           | EngineEnd.returned _ => 0
           | EngineEnd.panicked _ => 2) := by
  rw [main_ok, hp]
  refine ⟨_, rfl, rfl, rfl, ?_⟩
  simp only
  split <;> rfl

/-- C4 at the sample environment, run without arguments: the engine is called
once, with no arguments, it panics, and standard error holds the panic message
and no usage line. -/
theorem main_without_package_calls_engine_witness :
    (∃ call : EngineCall String,
      (main sampleEnv (Except.ok (defaultFlags, [])) World.start).2.engineCalls
        = (World.start : World String).engineCalls ++ [call]
      ∧ call.args = []
      ∧ (main sampleEnv (Except.ok (defaultFlags, [])) World.start).2.stderr
        = (World.start : World String).stderr ++
          (match (sampleEnv.CommandLine call.fs call.pres []).2 with
           | EngineEnd.returned (some err) => sampleEnv.logLine err
           | EngineEnd.returned none => ""
           | EngineEnd.panicked trace => trace)
      ∧ exitStatus (main sampleEnv (Except.ok (defaultFlags, [])) World.start).1 =
          (match (sampleEnv.CommandLine call.fs call.pres []).2 with
           | EngineEnd.returned _ => 0
           | EngineEnd.panicked _ => 2))
    ∧ (main sampleEnv (Except.ok (defaultFlags, [])) World.start).2.stderr
        = "panic: runtime error: index out of range\n"
    ∧ (main sampleEnv (Except.ok (defaultFlags, [])) World.start).2.stdout = "" :=
  ⟨main_without_package_calls_engine sampleEnv defaultFlags World.start rfl,
    by rw [main_ok]; decide, by rw [main_ok]; decide⟩

/-- C6, as amended: when the template does not parse, `main` logs
`readTemplate: ` followed by the error, exits with status 1 and never calls the
engine; when the engine returns an error, `main` logs the error and returns, so
the exit status is 0. -/
theorem engine_failure_outcome (env : Env N) (flags : Flags) (args : List String) (w : World N) :
    (∀ e, env.templateParse "package.txt" = some e →
      main env (Except.ok (flags, args)) w = (Outcome.exit 1,
        { w with stderr := w.stderr ++ env.logLine ("readTemplate: " ++ e) })
      ∧ exitStatus (main env (Except.ok (flags, args)) w).1 = 1)
    ∧ (env.templateParse "package.txt" = none →
      ∃ call : EngineCall N,
        (main env (Except.ok (flags, args)) w).2.engineCalls = w.engineCalls ++ [call]
        ∧ call.args = args
        ∧ ∀ e, (env.CommandLine call.fs call.pres args).2 = EngineEnd.returned (some e) →
            (main env (Except.ok (flags, args)) w).2.stderr = w.stderr ++ env.logLine e
            ∧ (main env (Except.ok (flags, args)) w).1 = Outcome.ret ()
            ∧ exitStatus (main env (Except.ok (flags, args)) w).1 = 0) := by
  refine ⟨fun e he => ?_, fun hp => ?_⟩
  · rw [main_ok, he]
    exact ⟨rfl, rfl⟩
  · rw [main_ok, hp]
    refine ⟨_, rfl, rfl, fun e he => ?_⟩
    simp only at he
    simp [he, exitStatus]

/-- C6 at the sample environments: a template that does not parse gives exit
status 1. -/
theorem engine_failure_outcome_witness :
    exitStatus (main brokenEnv (Except.ok (defaultFlags, ["fmt"])) World.start).1 = 1 :=
  ((engine_failure_outcome brokenEnv defaultFlags ["fmt"] World.start).1
    "function \"node\" not defined" rfl).2

/-- C6 as stated fails: the engine returns an error for an unknown package,
`main` logs it, and the exit status is 0. -/
theorem engine_error_exit_status_zero :
    (∀ fs pres, (sampleEnv.CommandLine fs pres ["nosuch"]).2
        = EngineEnd.returned (some "cannot find package"))
    ∧ (main sampleEnv (Except.ok (defaultFlags, ["nosuch"])) World.start).2.stderr
        = "cannot find package\n"
    ∧ exitStatus (main sampleEnv (Except.ok (defaultFlags, ["nosuch"])) World.start).1 = 0 := by
  refine ⟨fun _ _ => rfl, ?_, ?_⟩
  · rw [main_ok]
    decide
  · rw [main_ok]
    decide

/-- C7 fails on the code for `-templates`: once the template has parsed, the
engine is called with the command-line arguments, a name space whose first
binding is the `-goroot` directory at `/`, and a presentation that carries
`-v`, `-tabwidth`, `-timestamps`, `-play`, `-ex` and `-links` unchanged and the
built-in template under the name `package.txt`; the value of `-templates` is
read nowhere, so changing it changes nothing in what `main` does. -/
theorem flags_reach_engine_except_templates (env : Env N) (flags : Flags) (args : List String)
    (w : World N) (hp : env.templateParse "package.txt" = none) :
    (∃ call : EngineCall N,
      (main env (Except.ok (flags, args)) w).2.engineCalls = w.engineCalls ++ [call]
      ∧ call.args = args
      ∧ call.fs.head? = some { old := "/", root := flags.goroot, new := "/",
                               mode := BindMode.BindReplace }
      ∧ call.pres.Corpus.fs = call.fs
      ∧ call.pres.Corpus.Verbose = flags.verbose
      ∧ call.pres.TabWidth = flags.tabWidth
      ∧ call.pres.ShowTimestamps = flags.showTimestamps
      ∧ call.pres.ShowPlayground = flags.showPlayground
      ∧ call.pres.ShowExamples = flags.showExamples
      ∧ call.pres.DeclLinks = flags.declLinks
      ∧ call.pres.PackageText = some { name := "package.txt", exec := pkgTemplate })
    ∧ ∀ dir : String,
        main env (Except.ok ({ flags with templateDir := dir }, args)) w
          = main env (Except.ok (flags, args)) w := by
  refine ⟨?_, fun dir => ?_⟩
  · rw [main_ok, hp]
    refine ⟨_, rfl, rfl, ?_, rfl, rfl, rfl, rfl, rfl, rfl, rfl, rfl⟩
    exact bindRoots_head env flags.goroot
  · rw [main_ok, main_ok]
    rfl

/-- C7 at the sample environment: `-templates=/tmp/alt` changes nothing. -/
theorem flags_reach_engine_except_templates_witness :
    main sampleEnv (Except.ok ({ defaultFlags with templateDir := "/tmp/alt" }, ["fmt"]))
        World.start
      = main sampleEnv (Except.ok (defaultFlags, ["fmt"])) World.start :=
  (flags_reach_engine_except_templates sampleEnv defaultFlags ["fmt"] World.start rfl).2
    "/tmp/alt"

/-! ## The five headings, once each and in order -/

/-- C8, as amended: for a package that is not a main package, with constants,
variables, functions, types and notes all present, when no string substituted
on the page (the outputs of `node`, `comment_text` and `example_text`, the
package name, the import path and the note markers) contains `## ` and no
output of `example_text` on the page ends with a number sign, the output is the
syntax-tree text, the package heading and the package doc comment, and after
them the lines `## Constants`, `## Variables`, `## Functions`, `## Types` and
`## Notes` in this order; and each of the five headings starts at exactly one
position of the output. -/
theorem headings_once_in_order (fm : FuncMap N) (info : PageInfo N) (d : Package N)
    (hd : info.PDoc = some d) (hm : info.IsMain = false)
    (hc : d.Consts ≠ []) (hv : d.Vars ≠ []) (hf : d.Funcs ≠ []) (ht : d.Types ≠ [])
    (hn : info.Notes ≠ [])
    (hsub : ∀ s, s ∈ substitutedStrings fm info d → ¬ Occurs "## " s)
    (hend : ∀ s, s ∈ exampleStrings fm info d → ¬ EndsWithHash s) :
    (∃ p1 p2 p3 p4 p5 p6, pkgTemplate fm info =
      pastText fm info ++ "# package " ++ d.Name ++ "\n\n    import \"" ++ d.ImportPath
        ++ "\"\n\n" ++ fm.comment_text d.Doc "" "\t"
        ++ p1 ++ "\n## Constants\n" ++ p2 ++ "\n## Variables\n" ++ p3 ++ "\n## Functions\n"
        ++ p4 ++ "\n## Types\n" ++ p5 ++ "\n## Notes\n" ++ p6)
    ∧ countOcc "## Constants".data (pkgTemplate fm info).data = 1
    ∧ countOcc "## Variables".data (pkgTemplate fm info).data = 1
    ∧ countOcc "## Functions".data (pkgTemplate fm info).data = 1
    ∧ countOcc "## Types".data (pkgTemplate fm info).data = 1
    ∧ countOcc "## Notes".data (pkgTemplate fm info).data = 1 := by
  have hop : ∀ s, s ∈ opaqueStrings fm info d → ¬ Occurs "## " s := fun s hs =>
    hsub s (List.mem_append_right _ hs)
  have hname : ¬ Occurs "## " d.Name := hsub _ (by simp [substitutedStrings])
  have hpath : ¬ Occurs "## " d.ImportPath := hsub _ (by simp [substitutedStrings])
  have hdoc : ¬ Occurs "## " (fm.comment_text d.Doc "" "\t") := hop _ (by simp [opaqueStrings])
  have hex0 : ¬ Occurs "## " (fm.example_text info "" "\t") := hop _ (by simp [opaqueStrings])
  have hpast : ¬ Occurs "## " (pastText fm info) := by
    cases hp : info.PAst with
    | none =>
      simp only [pastText, hp]
      decide
    | some a =>
      simp only [pastText, hp]
      exact hop _ (by simp [opaqueStrings, pastStrings, hp])
  have j1 : ∀ (X r : List Char), countOcc ('#' :: '#' :: ' ' :: X)
      ((joinMap (valueText fm info) d.Consts).data ++ r)
        = countOcc ('#' :: '#' :: ' ' :: X) r := fun X =>
    countOcc_skip_joinMap _ _ _ (fun v hv => countOcc_skip_valueText X fm info v
      (fun s hs => hop s (by
        simp only [opaqueStrings, List.mem_append]
        exact Or.inl (Or.inl (Or.inl (Or.inl (Or.inr (List.mem_flatMap.mpr ⟨v, hv, hs⟩))))))))
  have j2 : ∀ (X r : List Char), countOcc ('#' :: '#' :: ' ' :: X)
      ((joinMap (valueText fm info) d.Vars).data ++ r)
        = countOcc ('#' :: '#' :: ' ' :: X) r := fun X =>
    countOcc_skip_joinMap _ _ _ (fun v hv => countOcc_skip_valueText X fm info v
      (fun s hs => hop s (by
        simp only [opaqueStrings, List.mem_append]
        exact Or.inl (Or.inl (Or.inl (Or.inr (List.mem_flatMap.mpr ⟨v, hv, hs⟩)))))))
  have j3 : ∀ (X r : List Char), countOcc ('#' :: '#' :: ' ' :: X)
      ((joinMap (funcText fm info) d.Funcs).data ++ r)
        = countOcc ('#' :: '#' :: ' ' :: X) r := fun X =>
    countOcc_skip_joinMap _ _ _ (fun f hf => countOcc_skip_funcText X fm info f
      (fun s hs => hop s (by
        simp only [opaqueStrings, List.mem_append]
        exact Or.inl (Or.inl (Or.inr (List.mem_flatMap.mpr ⟨f, hf, hs⟩)))))
      (hend _ (by
        simp only [exampleStrings, List.mem_append]
        exact Or.inl (Or.inr (List.mem_map_of_mem _ hf)))))
  have j4 : ∀ (X r : List Char), countOcc ('#' :: '#' :: ' ' :: X)
      ((joinMap (typeText fm info) d.Types).data ++ r)
        = countOcc ('#' :: '#' :: ' ' :: X) r := fun X =>
    countOcc_skip_joinMap _ _ _ (fun t htm => countOcc_skip_typeText X fm info t
      (fun s hs => hop s (by
        simp only [opaqueStrings, List.mem_append]
        exact Or.inl (Or.inr (List.mem_flatMap.mpr ⟨t, htm, hs⟩))))
      (fun m hmm => hend _ (by
        simp only [exampleStrings, List.mem_append]
        exact Or.inr (List.mem_flatMap.mpr ⟨t, htm, by
          simp only [List.mem_append]
          exact Or.inr (List.mem_map_of_mem _ hmm)⟩))))
  have j5 : ∀ (X r : List Char), countOcc ('#' :: '#' :: ' ' :: X)
      ((joinMap (markerText fm info.Notes) (sortKeys (mapKeys info.Notes))).data ++ r)
        = countOcc ('#' :: '#' :: ' ' :: X) r := fun X =>
    countOcc_skip_joinMap _ _ _ (fun k hk => countOcc_skip_markerText X fm info.Notes k
      (hsub k (by
        simp only [substitutedStrings, List.mem_append]
        exact Or.inl (Or.inr hk)))
      (fun s hs => hop s (by
        simp only [opaqueStrings, List.mem_append]
        exact Or.inr (List.mem_flatMap.mpr ⟨k, hk, hs⟩))))
  have j6 : ∀ (X : List Char), countOcc ('#' :: '#' :: ' ' :: X)
      (joinMap (markerText fm info.Notes) (sortKeys (mapKeys info.Notes))).data = 0 := fun X => by
    have := j5 X []
    simpa [countOcc] using this
  have hout : pkgTemplate fm info = pastText fm info ++ ("# package " ++ (d.Name
      ++ ("\n\n    import \"" ++ (d.ImportPath ++ ("\"\n\n" ++ (fm.comment_text d.Doc "" "\t"
      ++ ("\n" ++ (fm.example_text info "" "\t"
      ++ ("\n## Constants\n\n" ++ (joinMap (valueText fm info) d.Consts
      ++ ("\n## Variables\n\n" ++ (joinMap (valueText fm info) d.Vars
      ++ ("\n## Functions\n\n" ++ (joinMap (funcText fm info) d.Funcs
      ++ ("\n## Types\n\n" ++ (joinMap (typeText fm info) d.Types
      ++ ("\n## Notes\n" ++ joinMap (markerText fm info.Notes)
        (sortKeys (mapKeys info.Notes))))))))))))))))))) := by
    rw [pkgTemplate_nonMain fm info d hd hm]
    simp [constsText, varsText, funcsText, typesText, notesText, hc, hv, hf, ht, hn,
      String.append_assoc]
  refine ⟨⟨"\n" ++ fm.example_text info "" "\t", "\n" ++ joinMap (valueText fm info) d.Consts,
    "\n" ++ joinMap (valueText fm info) d.Vars, "\n" ++ joinMap (funcText fm info) d.Funcs,
    "\n" ++ joinMap (typeText fm info) d.Types,
    joinMap (markerText fm info.Notes) (sortKeys (mapKeys info.Notes)), ?_⟩, ?_, ?_, ?_, ?_, ?_⟩
  · rw [hout]
    simp only [String.append_assoc]
    rfl
  all_goals
    rw [hout]
    simp [String.data_append, countOcc_cons, List.isPrefixOf, countOcc_skip_sub,
      hpast, hname, hpath, hdoc, hex0, j1, j2, j3, j4, j5, j6]

/-- C8 at the sample library page, whose doc comments mention `issue #12`. -/
theorem headings_once_in_order_witness :
    countOcc "## Constants".data (pkgTemplate plainFuncMap sampleInfo).data = 1
    ∧ countOcc "## Variables".data (pkgTemplate plainFuncMap sampleInfo).data = 1
    ∧ countOcc "## Functions".data (pkgTemplate plainFuncMap sampleInfo).data = 1
    ∧ countOcc "## Types".data (pkgTemplate plainFuncMap sampleInfo).data = 1
    ∧ countOcc "## Notes".data (pkgTemplate plainFuncMap sampleInfo).data = 1 :=
  (headings_once_in_order plainFuncMap sampleInfo samplePackage rfl rfl
    (by simp [samplePackage]) (by simp [samplePackage]) (by simp [samplePackage])
    (by simp [samplePackage]) (by simp [sampleInfo])
    (by decide) (by decide)).2

/-- C8 as stated fails, in two ways.  On the page of a package kept in a
directory named `## Notes`, rendered with functions that echo their arguments
and show no examples, no output of the three functions contains `## `, and the
text `## Notes` is in the output twice: in the import line and as the heading.
And with an example text of `F` that ends with a number sign and a declaration
of `G` that starts with `# Constants`, again no output of the three functions
contains `## `, and the Functions section has a second line `## Constants`,
after `## Variables`. -/
theorem heading_text_occurs_twice :
    (notesDirInfo.PDoc = some { samplePackage with ImportPath := "example.com/## Notes" }
      ∧ notesDirInfo.IsMain = false
      ∧ samplePackage.Consts.isEmpty = false ∧ samplePackage.Vars.isEmpty = false
      ∧ samplePackage.Funcs.isEmpty = false ∧ samplePackage.Types.isEmpty = false
      ∧ notesDirInfo.Notes.isEmpty = false
      ∧ (∀ s, s ∈ opaqueStrings plainFuncMap notesDirInfo
            { samplePackage with ImportPath := "example.com/## Notes" } → ¬ Occurs "## " s)
      ∧ countOcc "## Notes".data (pkgTemplate plainFuncMap notesDirInfo).data = 2)
    ∧ (numberedInfo.PDoc = some numberedPackage ∧ numberedInfo.IsMain = false
      ∧ numberedPackage.Consts.isEmpty = false ∧ numberedPackage.Vars.isEmpty = false
      ∧ numberedPackage.Funcs.isEmpty = false ∧ numberedPackage.Types.isEmpty = false
      ∧ numberedInfo.Notes.isEmpty = false
      ∧ (∀ s, s ∈ opaqueStrings splitFuncMap numberedInfo numberedPackage → ¬ Occurs "## " s)
      ∧ pkgTemplate splitFuncMap numberedInfo
          = "# package p\n\n    import \"x/p\"\n\ndoc\n\n## Constants\n\nfunc F()\ndoc\n"
            ++ "\n## Variables\n\nfunc F()\ndoc\n"
            ++ "\n## Functions\n\nfunc F()\ndoc\n## Constants\ndoc\n"
            ++ "\n## Types\n\nfunc F()\ndoc\n\n\n"
            ++ "\n## Notes\n\nBUGS\n\ndoc\n"
      ∧ countOcc "## Constants".data (pkgTemplate splitFuncMap numberedInfo).data = 2) := by
  refine ⟨⟨rfl, rfl, rfl, rfl, rfl, rfl, rfl, by decide, by decide⟩,
    ⟨rfl, rfl, rfl, rfl, rfl, rfl, rfl, by decide, by decide, by decide⟩⟩

end Godoc2md
